import Mathlib

set_option maxHeartbeats 1000000

namespace Emberclear

/-- Byte arrays, as carried by the identity key material. -/
abbrev Bytes := List Nat

/-- Modelled from the spec: lowercase hex digit for a value below 16. -/
def hexDigit (n : Nat) : Char :=
  if n < 10 then Char.ofNat (48 + n) else Char.ofNat (87 + n)

/-- Modelled from the spec: two-digit lowercase hex encoding of one byte. -/
def byteToHex (b : Nat) : String :=
  String.mk [hexDigit (b / 16 % 16), hexDigit (b % 16)]

/-- Modelled from the spec: `toHex` from `emberclear/src/utils/string-encoding`
(imported by relay-connection.ts but not present under src/): lowercase hex
encoding of a byte array.  The spec gives the example that key bytes
0xAB, 0xCD yield the string "abcd". -/
def toHex (bs : Bytes) : String :=
  String.join (bs.map byteToHex)

/-- Modelled from the spec: the identity collaborator, exposing `exists()`
(here `existsb`, awaited by `canConnect`) and `publicKey`. -/
structure Identity where
  existsb : Bool
  publicKey : Option Bytes
deriving DecidableEq, Repr

/-- Modelled from the spec: the relay manager resolves `getRelay().socket`
to a socket url. -/
structure Relay where
  socket : String
deriving DecidableEq, Repr

/-- A phoenix Socket handle: `new Socket(url, params uid ...)` records the url
and the uid connection parameter it was opened with. -/
structure Socket where
  url : String
  uid : String
deriving DecidableEq, Repr

/-- A phoenix Channel handle: `socket.channel(channelName, ...)` records the
topic it was created with. -/
structure Channel where
  topic : String
deriving DecidableEq, Repr

/-- The mutable fields of the RelayConnection service:
socket?, channel?, channelName?, status?, statusLevel?, connected. -/
structure ConnState where
  socket : Option Socket
  channel : Option Channel
  channelName : Option String
  status : Option String
  statusLevel : Option String
  connected : Bool
deriving DecidableEq, Repr

/-- The initial state of a fresh RelayConnection instance: all optional
fields undefined, `connected = false`. -/
def connInit : ConnState :=
  { socket := none, channel := none, channelName := none
    status := none, statusLevel := none, connected := false }

/-- JS truthiness of an optional string: `undefined` and the empty string
are falsy. -/
def strFalsy : Option String → Bool
  | none => true
  | some s => s = ""

/-- Possible fates of a channel-join handshake: the receive callbacks
registered on `channel.join()` fire on "ok", "error" (with a payload) or
"timeout"; `silent` is the case where no acknowledgment ever arrives. -/
inductive JoinAck where
  | ok
  | error (data : String)
  | timeout
  | silent
deriving DecidableEq, Repr

/-- Possible fates of a `channel.push` acknowledgment, with the payload the
server acknowledges with on "ok" or "error". -/
inductive PushAck where
  | ok (payload : String)
  | error (payload : String)
  | timeout
  | silent
deriving DecidableEq, Repr

/-- How a promise settles: fulfilled with a value, rejected with a reason,
or forever pending. -/
inductive Settle (ε : Type) (α : Type) where
  | fulfilled (v : α)
  | rejected (e : ε)
  | pending
deriving DecidableEq, Repr

/-- Rejection reasons surfaced by `send`: either a plain payload string
(a propagated rejection or the server error payload) or the timeout object
carrying a localized reason field. -/
inductive RejectVal where
  | str (s : String)
  | timeoutObj (reason : String)
deriving DecidableEq, Repr

/-- updateStatus: last-write-wins status message and level. -/
def updateStatus (level msg : String) (s : ConnState) : ConnState :=
  { s with status := some msg, statusLevel := some level }

/-- onSocketError handler: error-level localized status, nothing else. -/
def onSocketError (intl : String → String) (s : ConnState) : ConnState :=
  updateStatus "error" (intl "connection.status.socket.error") s

/-- onSocketClose handler: info-level localized status, then clears
`connected`. -/
def onSocketClose (intl : String → String) (s : ConnState) : ConnState :=
  let s1 := updateStatus "info" (intl "connection.status.socket.close") s
  { s1 with connected := false }

/-- Result of the channel error and close handlers: the state (untouched),
the console log, and how many `socket.disconnect()` calls were made. -/
structure ChanHandlerRes where
  state : ConnState
  logs : List String
  disconnectCalls : Nat
deriving DecidableEq, Repr

/-- onChannelError handler: logs and best-effort disconnects the socket;
no tracked field changes. -/
def onChannelError (s : ConnState) : ChanHandlerRes :=
  ⟨s, ["channel errored"], if s.socket.isSome then 1 else 0⟩

/-- onChannelClose handler: logs and best-effort disconnects the socket;
no tracked field changes. -/
def onChannelClose (s : ConnState) : ChanHandlerRes :=
  ⟨s, ["channel closed"], if s.socket.isSome then 1 else 0⟩

/-- handleError: logs the payload to console.error, nothing else. -/
def handleError (data : String) : List String := [data]

/-- Result of handleConnected: the updated state and the number of
`dispatcher.pingAll()` calls it made. -/
structure HandleConnectedRes where
  state : ConnState
  pingAllCalls : Nat
deriving DecidableEq, Repr

/-- handleConnected: info-level localized "connected" status, then one
presence ping broadcast through the dispatcher. -/
def handleConnected (intl : String → String) (s : ConnState) : HandleConnectedRes :=
  ⟨updateStatus "info" (intl "connection.connected") s, 1⟩

/-- canConnect: returns `identity.exists()`. -/
def canConnect (id : Identity) : Bool := id.existsb

/-- userChannelId: the hex of the identity public key, or the empty string
when no public key is set. -/
def userChannelId (id : Identity) : String :=
  match id.publicKey with
  | none => ""
  | some pk => toHex pk

/-- Outcome of the synchronous body of the `getChannel` promise executor:
either the promise settles at once (memoized channel, missing socket or
missing channel name), or a channel was created and a join initiated. -/
inductive GcSync where
  | settledNow (o : Settle String (Option Channel))
  | joining (c : Channel)
deriving DecidableEq, Repr

/-- The synchronous part of getChannel: resolve the memoized channel if one
exists; reject if there is no socket or no (truthy) channel name; otherwise
create the channel from the socket, store it, register its handlers and
start the join. -/
def getChannelSync (intl : String → String) (s : ConnState) :
    ConnState × GcSync :=
  match s.channel with
  | some ch => (s, .settledNow (.fulfilled (some ch)))
  | none =>
    match s.socket with
    | none => (s, .settledNow (.rejected (intl "connection.errors.subscribe.notConnected")))
    | some _ =>
      match s.channelName with
      | none => (s, .settledNow (.rejected "No Channel Name Specified"))
      | some nm =>
        if nm = "" then
          (s, .settledNow (.rejected "No Channel Name Specified"))
        else
          ({ s with channel := some ⟨nm⟩ }, .joining ⟨nm⟩)

/-- Result of delivering a join acknowledgment: the state, how the pending
getChannel promise settles, console error and info logs, and the number of
`dispatcher.pingAll()` calls. -/
structure AckRes where
  state : ConnState
  outcome : Settle String (Option Channel)
  errorLogs : List String
  infoLogs : List String
  pingAllCalls : Nat
deriving DecidableEq, Repr

/-- The join receive callbacks of getChannel: on "ok" set `connected`, run
handleConnected and resolve with the channel; on "error" run handleError
(log only); on "timeout" log the localized status; otherwise nothing fires
and the promise stays pending. -/
def applyJoinAck (intl : String → String) (ch : Channel) (ack : JoinAck)
    (s : ConnState) : AckRes :=
  match ack with
  | .ok =>
    let s1 := { s with connected := true }
    let h := handleConnected intl s1
    ⟨h.state, .fulfilled (some ch), [], [], h.pingAllCalls⟩
  | .error d => ⟨s, .pending, handleError d, [], 0⟩
  | .timeout => ⟨s, .pending, [], [intl "connection.status.timeout"], 0⟩
  | .silent => ⟨s, .pending, [], [], 0⟩

/-- Result of a full getChannel call: final state, promise outcome, logs,
pingAll calls and the number of channel objects created. -/
structure GetChannelRes where
  state : ConnState
  outcome : Settle String (Option Channel)
  errorLogs : List String
  infoLogs : List String
  pingAllCalls : Nat
  channelsCreated : Nat
deriving DecidableEq, Repr

/-- getChannel, with the fate `ack` of the join handshake supplied by the
environment: the synchronous executor followed by the join callbacks. -/
def getChannel (intl : String → String) (ack : JoinAck) (s : ConnState) :
    GetChannelRes :=
  match getChannelSync intl s with
  | (s1, .settledNow o) => ⟨s1, o, [], [], 0, 0⟩
  | (s1, .joining ch) =>
    let a := applyJoinAck intl ch ack s1
    ⟨a.state, a.outcome, a.errorLogs, a.infoLogs, a.pingAllCalls, 1⟩

/-- Result of a send call: final state, the fate of the promise send
returns (fulfilled value `none` models resolving with undefined), logs,
pingAll calls, channels created, and the pushed events as
(event, to, message) triples. -/
structure SendRes where
  state : ConnState
  outcome : Settle RejectVal (Option String)
  errorLogs : List String
  infoLogs : List String
  pingAllCalls : Nat
  channelsCreated : Nat
  pushes : List (String × String × String)
deriving DecidableEq, Repr

/-- send(to, data): awaits getChannel (a rejection there propagates as the
rejection of the promise send returns, and a pending join leaves it
pending); if the awaited channel is falsy, logs the localized error and
returns (resolving with undefined); otherwise pushes one "chat" event with
the payload fields to and message, and settles according to the push
acknowledgment. -/
def send (intl : String → String) (jack : JoinAck) (pack : PushAck)
    (to_ data : String) (s : ConnState) : SendRes :=
  let g := getChannel intl jack s
  match g.outcome with
  | .rejected e =>
    ⟨g.state, .rejected (.str e), g.errorLogs, g.infoLogs,
      g.pingAllCalls, g.channelsCreated, []⟩
  | .pending =>
    ⟨g.state, .pending, g.errorLogs, g.infoLogs,
      g.pingAllCalls, g.channelsCreated, []⟩
  | .fulfilled chOpt =>
    match chOpt with
    | none =>
      ⟨g.state, .fulfilled none,
        g.errorLogs ++ [intl "connection.errors.send.notConnected"],
        g.infoLogs, g.pingAllCalls, g.channelsCreated, []⟩
    | some _ =>
      let pushed := [("chat", to_, data)]
      match pack with
      | .ok p =>
        ⟨g.state, .fulfilled (some p), g.errorLogs, g.infoLogs,
          g.pingAllCalls, g.channelsCreated, pushed⟩
      | .error p =>
        ⟨g.state, .rejected (.str p), g.errorLogs, g.infoLogs,
          g.pingAllCalls, g.channelsCreated, pushed⟩
      | .timeout =>
        ⟨g.state, .rejected (.timeoutObj (intl "models.message.errors.timeout")),
          g.errorLogs, g.infoLogs, g.pingAllCalls, g.channelsCreated, pushed⟩
      | .silent =>
        ⟨g.state, .pending, g.errorLogs, g.infoLogs,
          g.pingAllCalls, g.channelsCreated, pushed⟩

/-- Result of one establishConnection run: final state, logs, pingAll
calls, and the numbers of sockets and channels created. -/
structure EstRes where
  state : ConnState
  errorLogs : List String
  infoLogs : List String
  pingAllCalls : Nat
  socketsCreated : Nat
  channelsCreated : Nat
deriving DecidableEq, Repr

/-- The body of the establishConnection task, run to completion with the
join fate `ack` supplied by the environment: precondition check, status
update, socket creation with the uid parameter, channelName assignment,
then getChannel. -/
def establishConnection (intl : String → String) (id : Identity)
    (relay : Relay) (ack : JoinAck) (s : ConnState) : EstRes :=
  if !canConnect id || s.connected then ⟨s, [], [], 0, 0, 0⟩
  else
    let s1 := updateStatus "info" (intl "connection.connecting") s
    let publicKey := userChannelId id
    let _sock : Socket := ⟨relay.socket, publicKey⟩
    let s2 := { s1 with socket := some ⟨relay.socket, publicKey⟩
                        channelName := some ("user:" ++ publicKey) }
    let g := getChannel intl ack s2
    ⟨g.state, g.errorLogs, g.infoLogs, g.pingAllCalls, 1, g.channelsCreated⟩

/-- Where the dropTask establishConnection generator is suspended: not
running, awaiting the canConnect promise, or awaiting the getChannel
promise with a join pending on channel `ch`. -/
inductive EstPhase where
  | idle
  | awaitCan
  | awaitJoin (ch : Channel)
deriving DecidableEq, Repr

/-- The connection together with the dropTask bookkeeping and resource
counters, for reasoning about interleaved connect() calls. -/
structure Sys where
  conn : ConnState
  phase : EstPhase
  socketsCreated : Nat
  channelsCreated : Nat
  pingAllCalls : Nat
deriving DecidableEq, Repr

/-- A fresh RelayConnection instance with its establishConnection task not
running and no resources created. -/
def sysInit : Sys := ⟨connInit, .idle, 0, 0, 0⟩

/-- Events of the interleaving model: a connect() call (which performs the
dropTask), the settling of the awaited canConnect promise, and the arrival
of a join acknowledgment. -/
inductive Ev where
  | connect
  | canReturn
  | joinAck (a : JoinAck)
deriving DecidableEq, Repr

/-- One event step.  connect() performs the establishConnection dropTask:
dropped (state unchanged) unless the task is idle, in which case the
generator runs to its first yield.  When canConnect settles, the body runs:
on a failed precondition the task ends; otherwise it updates the status,
creates the socket, stores socket and channelName, and runs the
synchronous part of getChannel, suspending on the join when one starts.
A join acknowledgment applies the join callbacks; the task ends when the
yielded getChannel promise settles and stays suspended while it is
pending. -/
def stepSys (intl : String → String) (id : Identity) (relay : Relay)
    (sys : Sys) (e : Ev) : Sys :=
  match e, sys.phase with
  | .connect, .idle => { sys with phase := .awaitCan }
  | .connect, _ => sys
  | .canReturn, .awaitCan =>
    if !canConnect id || sys.conn.connected then { sys with phase := .idle }
    else
      let s1 := updateStatus "info" (intl "connection.connecting") sys.conn
      let publicKey := userChannelId id
      let s2 := { s1 with socket := some ⟨relay.socket, publicKey⟩
                          channelName := some ("user:" ++ publicKey) }
      match getChannelSync intl s2 with
      | (s3, .settledNow _) =>
        { sys with conn := s3, phase := .idle
                   socketsCreated := sys.socketsCreated + 1 }
      | (s3, .joining ch) =>
        { sys with conn := s3, phase := .awaitJoin ch
                   socketsCreated := sys.socketsCreated + 1
                   channelsCreated := sys.channelsCreated + 1 }
  | .canReturn, _ => sys
  | .joinAck a, .awaitJoin ch =>
    let r := applyJoinAck intl ch a sys.conn
    { sys with conn := r.state
               phase := match r.outcome with
                        | .pending => .awaitJoin ch
                        | _ => .idle
               pingAllCalls := sys.pingAllCalls + r.pingAllCalls }
  | .joinAck _, _ => sys

/-- Run a sequence of events from a starting system state. -/
def runSys (intl : String → String) (id : Identity) (relay : Relay)
    (sys : Sys) (es : List Ev) : Sys :=
  es.foldl (stepSys intl id relay) sys

/-- The operations that touch the connection state, for stating state
invariants: one establishConnection run, getChannel, send, the socket and
channel handlers, handleConnected and updateStatus. -/
inductive Op where
  | establish (relay : Relay) (ack : JoinAck)
  | getCh (ack : JoinAck)
  | doSend (jack : JoinAck) (pack : PushAck) (to_ data : String)
  | sockError
  | sockClose
  | chanError
  | chanClose
  | connectedCb
  | status (level msg : String)
deriving DecidableEq, Repr

/-- The state component of each operation. -/
def applyOp (intl : String → String) (id : Identity) (op : Op)
    (s : ConnState) : ConnState :=
  match op with
  | .establish relay ack => (establishConnection intl id relay ack s).state
  | .getCh ack => (getChannel intl ack s).state
  | .doSend jack pack to_ data => (send intl jack pack to_ data s).state
  | .sockError => onSocketError intl s
  | .sockClose => onSocketClose intl s
  | .chanError => (onChannelError s).state
  | .chanClose => (onChannelClose s).state
  | .connectedCb => (handleConnected intl s).state
  | .status level msg => updateStatus level msg s

/-- The invariant of claim C4: a set, non-empty channel name implies the
identity has a public key. -/
def ChannelNameInv (id : Identity) (s : ConnState) : Prop :=
  ∀ nm, s.channelName = some nm → nm ≠ "" → id.publicKey.isSome = true

/-- A sample localization table: the identity on keys. -/
def sampleIntl : String → String := fun k => k

/-- A sample identity whose public key bytes are 0xAB, 0xCD. -/
def sampleIdentity : Identity := ⟨true, some [171, 205]⟩

/-- A sample relay. -/
def sampleRelay : Relay := ⟨"wss://relay.example/socket"⟩

/-- A sample socket handle. -/
def sampleSocket : Socket := ⟨"wss://relay.example/socket", "abcd"⟩

/-- A sample channel handle. -/
def sampleChannel : Channel := ⟨"user:abcd"⟩

/-- A state about to join: socket and channel name set, no channel yet. -/
def joiningState : ConnState :=
  { connInit with socket := some sampleSocket, channelName := some "user:abcd" }

/-- A state with a joined (memoized) channel. -/
def joinedState : ConnState :=
  { joiningState with channel := some sampleChannel, connected := true }

/-- The channel names establishConnection assigns are never empty. -/
theorem user_append_ne_empty (x : String) : ("user:" ++ x) ≠ "" := by
  intro h
  have h2 := congrArg String.length h
  simp [String.length_append] at h2
  exact absurd h2.1 (by decide)

/-- The synchronous part of getChannel only ever writes the channel field:
socket and channelName are untouched. -/
theorem getChannelSync_frame (intl : String → String) (s : ConnState) :
    (getChannelSync intl s).1.socket = s.socket ∧
    (getChannelSync intl s).1.channelName = s.channelName := by
  obtain ⟨so, ch, nm, st, lv, co⟩ := s
  cases ch with
  | some c => exact ⟨rfl, rfl⟩
  | none =>
    cases so with
    | none => exact ⟨rfl, rfl⟩
    | some sk =>
      cases nm with
      | none => exact ⟨rfl, rfl⟩
      | some n =>
        by_cases he : n = "" <;> simp [getChannelSync, he]

/-- The join callbacks only ever write connected, status and statusLevel:
socket and channelName are untouched. -/
theorem applyJoinAck_frame (intl : String → String) (ch : Channel)
    (ack : JoinAck) (s : ConnState) :
    (applyJoinAck intl ch ack s).state.socket = s.socket ∧
    (applyJoinAck intl ch ack s).state.channelName = s.channelName := by
  cases ack <;> exact ⟨rfl, rfl⟩

/-- getChannel leaves the socket handle and the channel name unchanged. -/
theorem getChannel_state_frame (intl : String → String) (ack : JoinAck)
    (s : ConnState) :
    (getChannel intl ack s).state.socket = s.socket ∧
    (getChannel intl ack s).state.channelName = s.channelName := by
  have h := getChannelSync_frame intl s
  unfold getChannel
  rcases hgs : getChannelSync intl s with ⟨s1, gc⟩
  rw [hgs] at h
  cases gc with
  | settledNow o => exact h
  | joining c =>
    have h2 := applyJoinAck_frame intl c ack s1
    exact ⟨h2.1.trans h.1, h2.2.trans h.2⟩

/-- The state after send is exactly the state after the awaited
getChannel call. -/
theorem send_state_eq (intl : String → String) (jack : JoinAck)
    (pack : PushAck) (to_ data : String) (s : ConnState) :
    (send intl jack pack to_ data s).state = (getChannel intl jack s).state := by
  unfold send
  cases h : (getChannel intl jack s).outcome with
  | rejected e => simp [h]
  | pending => simp [h]
  | fulfilled chOpt => cases chOpt <;> cases pack <;> simp [h]

/-- Claim C1, evaluation of the code at the failing input: on a fresh
connection (no socket, no channel, no channel name), send does not log a
localized error and return normally; instead the rejection of getChannel
propagates through the await, so the promise returned by send is rejected
with the localized subscribe notConnected reason.  The state is unchanged
(in particular no socket is created), nothing is logged from send, and
nothing is pushed. -/
theorem send_before_connect_rejects (intl : String → String) (jack : JoinAck)
    (pack : PushAck) (to_ data : String) :
    (send intl jack pack to_ data connInit).outcome
        = .rejected (.str (intl "connection.errors.subscribe.notConnected")) ∧
    (send intl jack pack to_ data connInit).state = connInit ∧
    (send intl jack pack to_ data connInit).errorLogs = [] ∧
    (send intl jack pack to_ data connInit).pushes = [] :=
  ⟨rfl, rfl, rfl, rfl⟩

/-- Claim C2: when getChannel has started a join (no memoized channel, a
socket and a non-empty channel name), an acknowledgment of "error" or
"timeout" leaves the returned promise pending — it is neither resolved nor
rejected — and the event is only logged (the error payload to the error
log, the localized timeout status to the info log). -/
theorem join_error_timeout_only_logged (intl : String → String)
    (s : ConnState) (nm d : String) (hch : s.channel = none)
    (hso : s.socket.isSome = true) (hnm : s.channelName = some nm)
    (hne : nm ≠ "") :
    (getChannel intl (.error d) s).outcome = .pending ∧
    (getChannel intl (.error d) s).errorLogs = [d] ∧
    (getChannel intl (.error d) s).infoLogs = [] ∧
    (getChannel intl .timeout s).outcome = .pending ∧
    (getChannel intl .timeout s).errorLogs = [] ∧
    (getChannel intl .timeout s).infoLogs = [intl "connection.status.timeout"] := by
  obtain ⟨sock, hsk⟩ := Option.isSome_iff_exists.mp hso
  simp [getChannel, getChannelSync, hch, hsk, hnm, hne, applyJoinAck, handleError]

/-- Witness for claim C2 at a concrete joining state. -/
theorem join_error_timeout_only_logged_w :
    joiningState.channel = none ∧ joiningState.socket.isSome = true ∧
    joiningState.channelName = some "user:abcd" ∧ "user:abcd" ≠ "" ∧
    ((getChannel sampleIntl (.error "boom") joiningState).outcome = .pending ∧
     (getChannel sampleIntl (.error "boom") joiningState).errorLogs = ["boom"] ∧
     (getChannel sampleIntl (.error "boom") joiningState).infoLogs = [] ∧
     (getChannel sampleIntl .timeout joiningState).outcome = .pending ∧
     (getChannel sampleIntl .timeout joiningState).errorLogs = [] ∧
     (getChannel sampleIntl .timeout joiningState).infoLogs
        = [sampleIntl "connection.status.timeout"]) :=
  ⟨rfl, rfl, rfl, by decide,
    join_error_timeout_only_logged sampleIntl joiningState "user:abcd" "boom"
      rfl rfl rfl (by decide)⟩

/-- Claim C5: a join acknowledged "ok" sets connected, updates the status
to the localized info-level connected message, makes exactly one
dispatcher pingAll call, stores the created channel, and resolves the
getChannel promise with that channel. -/
theorem join_ok_connects (intl : String → String) (s : ConnState)
    (nm : String) (hch : s.channel = none) (hso : s.socket.isSome = true)
    (hnm : s.channelName = some nm) (hne : nm ≠ "") :
    (getChannel intl .ok s).state.connected = true ∧
    (getChannel intl .ok s).state.status = some (intl "connection.connected") ∧
    (getChannel intl .ok s).state.statusLevel = some "info" ∧
    (getChannel intl .ok s).pingAllCalls = 1 ∧
    (getChannel intl .ok s).state.channel = some ⟨nm⟩ ∧
    (getChannel intl .ok s).outcome = .fulfilled (some ⟨nm⟩) := by
  obtain ⟨sock, hsk⟩ := Option.isSome_iff_exists.mp hso
  simp [getChannel, getChannelSync, hch, hsk, hnm, hne, applyJoinAck,
    handleConnected, updateStatus]

/-- Witness for claim C5 at a concrete joining state. -/
theorem join_ok_connects_w :
    joiningState.channel = none ∧ joiningState.socket.isSome = true ∧
    joiningState.channelName = some "user:abcd" ∧ "user:abcd" ≠ "" ∧
    ((getChannel sampleIntl .ok joiningState).state.connected = true ∧
     (getChannel sampleIntl .ok joiningState).state.status
        = some (sampleIntl "connection.connected") ∧
     (getChannel sampleIntl .ok joiningState).state.statusLevel = some "info" ∧
     (getChannel sampleIntl .ok joiningState).pingAllCalls = 1 ∧
     (getChannel sampleIntl .ok joiningState).state.channel = some ⟨"user:abcd"⟩ ∧
     (getChannel sampleIntl .ok joiningState).outcome
        = .fulfilled (some ⟨"user:abcd"⟩)) :=
  ⟨rfl, rfl, rfl, by decide,
    join_ok_connects sampleIntl joiningState "user:abcd" rfl rfl rfl (by decide)⟩

/-- Claim C6: with a joined (memoized) channel available, send pushes
exactly one "chat" event carrying the to and message fields, and the
promise it returns resolves with the server payload on "ok", rejects with
the server payload on "error", and rejects with the localized timeout
object on "timeout". -/
theorem send_on_joined_channel (intl : String → String) (jack : JoinAck)
    (to_ data : String) (s : ConnState) (ch : Channel)
    (hch : s.channel = some ch) :
    (∀ pack, (send intl jack pack to_ data s).pushes = [("chat", to_, data)]) ∧
    (∀ p, (send intl jack (.ok p) to_ data s).outcome = .fulfilled (some p)) ∧
    (∀ p, (send intl jack (.error p) to_ data s).outcome = .rejected (.str p)) ∧
    (send intl jack .timeout to_ data s).outcome
        = .rejected (.timeoutObj (intl "models.message.errors.timeout")) := by
  refine ⟨fun pack => ?_, fun p => ?_, fun p => ?_, ?_⟩ <;>
    first
      | (cases pack <;> simp [send, getChannel, getChannelSync, hch])
      | simp [send, getChannel, getChannelSync, hch]

/-- Witness for claim C6 at a concrete joined state. -/
theorem send_on_joined_channel_w :
    joinedState.channel = some sampleChannel ∧
    ((∀ pack, (send sampleIntl .silent pack "user:ef01" "encryptedpayload"
        joinedState).pushes = [("chat", "user:ef01", "encryptedpayload")]) ∧
     (∀ p, (send sampleIntl .silent (.ok p) "user:ef01" "encryptedpayload"
        joinedState).outcome = .fulfilled (some p)) ∧
     (∀ p, (send sampleIntl .silent (.error p) "user:ef01" "encryptedpayload"
        joinedState).outcome = .rejected (.str p)) ∧
     (send sampleIntl .silent .timeout "user:ef01" "encryptedpayload"
        joinedState).outcome
        = .rejected (.timeoutObj (sampleIntl "models.message.errors.timeout"))) :=
  ⟨rfl, send_on_joined_channel sampleIntl .silent "user:ef01" "encryptedpayload"
    joinedState sampleChannel rfl⟩

/-- Claim C8: when the identity does not exist or the connection is
already connected, an establishConnection run is a no-op: the state is
returned unchanged and no socket, channel, log entry or pingAll call is
produced. -/
theorem connect_noop_when_cannot (intl : String → String) (id : Identity)
    (relay : Relay) (ack : JoinAck) (s : ConnState)
    (h : id.existsb = false ∨ s.connected = true) :
    (establishConnection intl id relay ack s).state = s ∧
    (establishConnection intl id relay ack s).socketsCreated = 0 ∧
    (establishConnection intl id relay ack s).channelsCreated = 0 ∧
    (establishConnection intl id relay ack s).errorLogs = [] ∧
    (establishConnection intl id relay ack s).infoLogs = [] ∧
    (establishConnection intl id relay ack s).pingAllCalls = 0 := by
  have hg : (!canConnect id || s.connected) = true := by
    cases h with
    | inl h => simp [canConnect, h]
    | inr h => simp [h]
  simp [establishConnection, hg]

/-- Witness for claim C8: an identity that does not exist. -/
theorem connect_noop_when_cannot_w :
    ((Identity.mk false none).existsb = false ∨ connInit.connected = true) ∧
    ((establishConnection sampleIntl ⟨false, none⟩ sampleRelay .ok
        connInit).state = connInit ∧
     (establishConnection sampleIntl ⟨false, none⟩ sampleRelay .ok
        connInit).socketsCreated = 0 ∧
     (establishConnection sampleIntl ⟨false, none⟩ sampleRelay .ok
        connInit).channelsCreated = 0 ∧
     (establishConnection sampleIntl ⟨false, none⟩ sampleRelay .ok
        connInit).errorLogs = [] ∧
     (establishConnection sampleIntl ⟨false, none⟩ sampleRelay .ok
        connInit).infoLogs = [] ∧
     (establishConnection sampleIntl ⟨false, none⟩ sampleRelay .ok
        connInit).pingAllCalls = 0) :=
  ⟨Or.inl rfl,
    connect_noop_when_cannot sampleIntl ⟨false, none⟩ sampleRelay .ok connInit
      (Or.inl rfl)⟩

/-- Claim C9: the socket close handler sets the status to the localized
info-level close message and clears connected, leaving the stored socket,
channel and channel name unchanged. -/
theorem socket_close_clears_connected (intl : String → String)
    (s : ConnState) :
    (onSocketClose intl s).socket = s.socket ∧
    (onSocketClose intl s).channel = s.channel ∧
    (onSocketClose intl s).channelName = s.channelName ∧
    (onSocketClose intl s).connected = false ∧
    (onSocketClose intl s).statusLevel = some "info" ∧
    (onSocketClose intl s).status = some (intl "connection.status.socket.close") :=
  ⟨rfl, rfl, rfl, rfl, rfl, rfl⟩

/-- Claim C3: a connect() performed while the establishConnection task is
not idle is dropped outright (the whole system state is unchanged, so
nothing is queued), and the interleaving connect, connect, canConnect
settles, join acknowledged — where the second connect lands while the
first establishment is in flight — creates exactly one socket and exactly
one channel. -/
theorem connect_dropped_one_socket (intl : String → String) (id : Identity)
    (relay : Relay) (a : JoinAck) (hid : id.existsb = true) :
    (∀ sys : Sys, sys.phase ≠ .idle → stepSys intl id relay sys .connect = sys) ∧
    (runSys intl id relay sysInit
        [.connect, .connect, .canReturn, .joinAck a]).socketsCreated = 1 ∧
    (runSys intl id relay sysInit
        [.connect, .connect, .canReturn, .joinAck a]).channelsCreated = 1 := by
  refine ⟨fun sys h => ?_, ?_, ?_⟩
  · cases hp : sys.phase with
    | idle => exact absurd hp h
    | awaitCan => simp [stepSys, hp]
    | awaitJoin ch => simp [stepSys, hp]
  all_goals
    cases a <;>
      simp [runSys, stepSys, canConnect, hid, sysInit, connInit, updateStatus,
        getChannelSync, user_append_ne_empty, applyJoinAck, handleConnected]

/-- Witness for claim C3 at a concrete identity, relay and join fate. -/
theorem connect_dropped_one_socket_w :
    sampleIdentity.existsb = true ∧
    ((∀ sys : Sys, sys.phase ≠ .idle →
        stepSys sampleIntl sampleIdentity sampleRelay sys .connect = sys) ∧
     (runSys sampleIntl sampleIdentity sampleRelay sysInit
        [.connect, .connect, .canReturn, .joinAck .ok]).socketsCreated = 1 ∧
     (runSys sampleIntl sampleIdentity sampleRelay sysInit
        [.connect, .connect, .canReturn, .joinAck .ok]).channelsCreated = 1) :=
  ⟨rfl, connect_dropped_one_socket sampleIntl sampleIdentity sampleRelay .ok rfl⟩

/-- Claim C4: assuming the identity collaborator only reports existing
when its public key is present (the identity service is not under src),
every operation preserves the invariant that a set, non-empty channel name
implies a public key is present; the initial state satisfies it
trivially. -/
theorem channelName_requires_publicKey (intl : String → String)
    (id : Identity) (op : Op) (s : ConnState)
    (hid : id.existsb = true → id.publicKey.isSome = true)
    (hs : ChannelNameInv id s) :
    ChannelNameInv id connInit ∧ ChannelNameInv id (applyOp intl id op s) := by
  refine ⟨fun nm hnm hne => by simp [connInit] at hnm, ?_⟩
  cases op with
  | establish relay ack =>
    by_cases hg : (!canConnect id || s.connected) = true
    · intro nm hnm hne
      refine hs nm ?_ hne
      rw [← hnm]
      simp [applyOp, establishConnection, hg]
    · intro nm hnm hne
      have hex : id.existsb = true := by
        rcases Bool.or_eq_false_iff.mp (Bool.eq_false_iff.mpr hg) with ⟨h1, h2⟩
        simpa [canConnect] using h1
      exact hid hex
  | getCh ack =>
    intro nm hnm hne
    refine hs nm ?_ hne
    rw [← hnm]
    exact (getChannel_state_frame intl ack s).2.symm
  | doSend jack pack to_ data =>
    intro nm hnm hne
    refine hs nm ?_ hne
    rw [← hnm]
    show s.channelName = (send intl jack pack to_ data s).state.channelName
    rw [send_state_eq]
    exact (getChannel_state_frame intl jack s).2.symm
  | sockError => exact fun nm hnm hne => hs nm hnm hne
  | sockClose => exact fun nm hnm hne => hs nm hnm hne
  | chanError => exact fun nm hnm hne => hs nm hnm hne
  | chanClose => exact fun nm hnm hne => hs nm hnm hne
  | connectedCb => exact fun nm hnm hne => hs nm hnm hne
  | status level msg => exact fun nm hnm hne => hs nm hnm hne

/-- Witness for claim C4: one establishConnection step from the initial
state with the sample identity. -/
theorem channelName_requires_publicKey_w :
    (sampleIdentity.existsb = true → sampleIdentity.publicKey.isSome = true) ∧
    ChannelNameInv sampleIdentity connInit ∧
    (ChannelNameInv sampleIdentity connInit ∧
     ChannelNameInv sampleIdentity
       (applyOp sampleIntl sampleIdentity (.establish sampleRelay .ok) connInit)) :=
  ⟨fun _ => rfl, fun nm hnm _ => by simp [connInit] at hnm,
    channelName_requires_publicKey sampleIntl sampleIdentity
      (.establish sampleRelay .ok) connInit (fun _ => rfl)
      (fun nm hnm _ => by simp [connInit] at hnm)⟩

/-- Claim C7: for a present, non-empty public key, an establishConnection
run that passes its precondition stores the channel name
"user:" followed by the lowercase hex of the key, and the socket it opens
carries the relay url and the hex of the key as its uid parameter. -/
theorem establish_channel_naming (intl : String → String) (id : Identity)
    (relay : Relay) (ack : JoinAck) (s : ConnState) (pk : Bytes)
    (hpk : id.publicKey = some pk) (hne : pk ≠ [])
    (hex : id.existsb = true) (hco : s.connected = false) :
    (establishConnection intl id relay ack s).state.channelName
        = some ("user:" ++ toHex pk) ∧
    (establishConnection intl id relay ack s).state.socket
        = some ⟨relay.socket, toHex pk⟩ := by
  have hg : (!canConnect id || s.connected) = false := by
    simp [canConnect, hex, hco]
  have hu : userChannelId id = toHex pk := by simp [userChannelId, hpk]
  unfold establishConnection
  rw [hg]
  simp only [Bool.false_eq_true, if_false, hu]
  constructor
  · exact ((getChannel_state_frame intl ack _).2).trans rfl
  · exact ((getChannel_state_frame intl ack _).1).trans rfl

/-- Witness for claim C7: the spec example key bytes 0xAB, 0xCD yield the
channel name user:abcd and the uid abcd. -/
theorem establish_channel_naming_w :
    sampleIdentity.publicKey = some [171, 205] ∧ ([171, 205] : Bytes) ≠ [] ∧
    sampleIdentity.existsb = true ∧ connInit.connected = false ∧
    toHex [171, 205] = "abcd" ∧
    ((establishConnection sampleIntl sampleIdentity sampleRelay .ok
        connInit).state.channelName = some ("user:" ++ toHex [171, 205]) ∧
     (establishConnection sampleIntl sampleIdentity sampleRelay .ok
        connInit).state.socket = some ⟨sampleRelay.socket, toHex [171, 205]⟩) :=
  ⟨rfl, by decide, rfl, rfl, by decide,
    establish_channel_naming sampleIntl sampleIdentity sampleRelay .ok connInit
      [171, 205] rfl (by decide) rfl rfl⟩

/-- The getChannel promise never fulfills with an absent channel. -/
theorem getChannel_not_fulfilled_none (intl : String → String)
    (jack : JoinAck) (s : ConnState) :
    (getChannel intl jack s).outcome ≠ .fulfilled none := by
  obtain ⟨so, ch, nm, st, lv, co⟩ := s
  cases ch with
  | some c => simp [getChannel, getChannelSync]
  | none =>
    cases so with
    | none => simp [getChannel, getChannelSync]
    | some sk =>
      cases nm with
      | none => simp [getChannel, getChannelSync]
      | some n =>
        by_cases he : n = "" <;> cases jack <;>
          simp [getChannel, getChannelSync, he, applyJoinAck, handleConnected,
            handleError]

/-- If the promise send returns fulfills with undefined, the awaited
getChannel promise must have fulfilled with an absent channel: the logging
branch of send is reachable only that way. -/
theorem send_fulfilled_none_from_getChannel (intl : String → String)
    (jack : JoinAck) (pack : PushAck) (to_ data : String) (s : ConnState) :
    (send intl jack pack to_ data s).outcome = .fulfilled none →
    (getChannel intl jack s).outcome = .fulfilled none := by
  unfold send
  cases h : (getChannel intl jack s).outcome with
  | rejected e => simp [h]
  | pending => simp [h]
  | fulfilled chOpt =>
    cases chOpt with
    | none => simp [h]
    | some c => cases pack <;> simp [h]

/-- Claim C10: the getChannel promise either fulfills with a channel
object, rejects — and then no channel was memoized and either no socket
exists or the channel name is falsy — or never settles; it never fulfills
with an absent channel, and consequently the promise send returns never
fulfills with undefined, which is the only product of the unreachable
not-connected logging branch inside send. -/
theorem getChannel_never_absent (intl : String → String) (jack : JoinAck)
    (s : ConnState) :
    ((∃ ch, (getChannel intl jack s).outcome = .fulfilled (some ch)) ∨
     ((∃ e, (getChannel intl jack s).outcome = .rejected e) ∧
        s.channel = none ∧
        (s.socket = none ∨ strFalsy s.channelName = true)) ∨
     (getChannel intl jack s).outcome = .pending) ∧
    (getChannel intl jack s).outcome ≠ .fulfilled none ∧
    (∀ pack to_ data,
      (send intl jack pack to_ data s).outcome ≠ .fulfilled none) := by
  refine ⟨?_, getChannel_not_fulfilled_none intl jack s, fun pack to_ data h =>
    getChannel_not_fulfilled_none intl jack s
      (send_fulfilled_none_from_getChannel intl jack pack to_ data s h)⟩
  obtain ⟨so, ch, nm, st, lv, co⟩ := s
  cases ch with
  | some c => exact Or.inl ⟨c, rfl⟩
  | none =>
    cases so with
    | none =>
      refine Or.inr (Or.inl ⟨⟨intl "connection.errors.subscribe.notConnected",
        rfl⟩, rfl, Or.inl rfl⟩)
    | some sk =>
      cases nm with
      | none => exact Or.inr (Or.inl ⟨⟨"No Channel Name Specified", rfl⟩, rfl,
          Or.inr rfl⟩)
      | some n =>
        by_cases he : n = ""
        · subst he
          exact Or.inr (Or.inl ⟨⟨"No Channel Name Specified",
            by simp [getChannel, getChannelSync]⟩, rfl, Or.inr (by simp [strFalsy])⟩)
        · cases jack with
          | ok =>
            refine Or.inl ⟨⟨n⟩, ?_⟩
            simp [getChannel, getChannelSync, he, applyJoinAck, handleConnected]
          | error d =>
            refine Or.inr (Or.inr ?_)
            simp [getChannel, getChannelSync, he, applyJoinAck]
          | timeout =>
            refine Or.inr (Or.inr ?_)
            simp [getChannel, getChannelSync, he, applyJoinAck]
          | silent =>
            refine Or.inr (Or.inr ?_)
            simp [getChannel, getChannelSync, he, applyJoinAck]

end Emberclear
